import Mathlib

/-!
Shallow embedding of the lqcli source-synchronization core
(src/config.rs, src/source.rs, src/fetch.rs, and the `sources sync`
command of src/main.rs).  External collaborators (the LingQ catalog
client, the HTTP fetcher, the RSS/Atom parsers from the rss and
atom_syndication crates, and the yt-dlp process) are modelled as an
explicit environment of oracle functions; the orchestrator is embedded
as a pure function from that environment to the list of observable
events (console lines, network calls, process invocations) it produces.
-/

namespace Lqcli

/-- One media enclosure of an RSS item (rss crate: `Enclosure`, field `url`). -/
structure Enclosure where
  url : String
deriving DecidableEq, Repr

/-- One RSS item (rss crate: `Item`); `title` is optional, `enclosure` is optional. -/
structure RssItem where
  title : Option String
  enclosure : Option Enclosure
deriving DecidableEq, Repr

/-- An RSS channel (rss crate: `Channel`) as the list of its items. -/
structure RssChannel where
  items : List RssItem
deriving DecidableEq, Repr

/-- One link of an Atom entry (atom_syndication crate: `Link`, accessor `href`). -/
structure AtomLink where
  href : String
deriving DecidableEq, Repr

/-- One Atom entry (atom_syndication crate: `Entry`); its title is always present. -/
structure AtomEntry where
  title : String
  links : List AtomLink
deriving DecidableEq, Repr

/-- An Atom feed (atom_syndication crate: `Feed`) as the list of its entries. -/
structure AtomFeed where
  entries : List AtomEntry
deriving DecidableEq, Repr

/-- src/source.rs `StaticItem`: a static link to an audio file somewhere. -/
structure StaticItem where
  url : String
  title : String
deriving DecidableEq, Repr

/-- src/source.rs `SourceItem`: what kind of individual item are we dealing with? -/
inductive SourceItem where
  | rss (item : RssItem)
  | atom (entry : AtomEntry)
  | static (item : StaticItem)
deriving DecidableEq, Repr

/-- src/source.rs `Feed`: a source's feed is either an RSS feed or an Atom feed. -/
inductive Feed where
  | rss (channel : RssChannel)
  | atom (feed : AtomFeed)
deriving DecidableEq, Repr

/-- src/source.rs `SourceError`; the reqwest and io error payloads are modelled
as their display strings. -/
inductive SourceError where
  | fetchError (err : String)
  | parseError (msg : String)
  | audioDownloadError (err : String)
deriving DecidableEq, Repr

/-- src/source.rs `ContentType` (only variant: `Syndication`). -/
inductive ContentType where
  | syndication
deriving DecidableEq, Repr

/-- src/fetch.rs `DownloadMethod` (only variant: `YtDlp`). -/
inductive DownloadMethod where
  | ytDlp
deriving DecidableEq, Repr

/-- src/config.rs `Tags`: a transparent wrapper around `Option<Vec<String>>`. -/
structure Tags where
  val : Option (List String)
deriving DecidableEq, Repr

/-- src/config.rs `Source`: one configured content origin. -/
structure Source where
  content_type : ContentType
  download_method : DownloadMethod
  url : String
  name : String
  postprocessing_prompt : Option String
  course_id : Nat
  language : String
  tags : Tags
  transcript_via : String
deriving DecidableEq, Repr

/-- src/config.rs `LingqConfig`. -/
structure LingqConfig where
  api_key : String
  request_delay : Nat
deriving DecidableEq, Repr

/-- src/config.rs `OpenaiConfig`. -/
structure OpenaiConfig where
  api_key : String
  postprocessing_prompt : String
  postprocessing_model : String
  whisper_model : String
deriving DecidableEq, Repr

/-- src/config.rs `LqcliConfig`. -/
structure LqcliConfig where
  lingq : LingqConfig
  openai : OpenaiConfig
  sources : List Source
deriving DecidableEq, Repr

/-- The external collaborators, as oracle functions.  Network bytes are
modelled as `List Nat`; reqwest / io errors as strings. -/
structure Env where
  /-- `LingqClient::get_lesson_titles` (src/lingq.rs): language and course id to
  the list of existing lesson titles, or a transport error. -/
  get_lesson_titles : String → Nat → Except String (List String)
  /-- `reqwest::get(url).await?.bytes().await?` in `Feed::from_source`. -/
  fetch_bytes : String → Except String (List Nat)
  /-- `rss::Channel::read_from` on the fetched bytes; `none` is a parse failure. -/
  parse_rss : List Nat → Option RssChannel
  /-- `atom_syndication::Feed::read_from` on the fetched bytes; `none` is a parse failure. -/
  parse_atom : List Nat → Option AtomFeed
  /-- The `yt-dlp` process invocation of src/fetch.rs `yt_dlp`: url to audio
  bytes, or an io error. -/
  yt_dlp_run : String → Except String (List Nat)

/-- src/config.rs `LqcliConfig::filtered_sources`: with an empty tag list return
every source; otherwise keep the sources one of whose own tags occurs in the
requested list (a source with `tags = None` is dropped). -/
def LqcliConfig.filtered_sources (config : LqcliConfig) (tags : List String) : List Source :=
  if tags.isEmpty then
    config.sources
  else
    config.sources.filter fun source =>
      match source.tags.val with
      | some source_tags => source_tags.any fun tag => tags.contains tag
      | none => false

/-- src/source.rs `Feed::from_source`: fetch the bytes of the source url (a
transport failure becomes `SourceError.fetchError` through the `From` impl),
try to parse as RSS, on failure try Atom, and when both parses fail return
the `ParseError` with the code's message. -/
def Feed.from_source (env : Env) (source : Source) : Except SourceError Feed :=
  match env.fetch_bytes source.url with
  | .error e => .error (.fetchError e)
  | .ok content =>
    match env.parse_rss content with
    | some channel => .ok (.rss channel)
    | none =>
      match env.parse_atom content with
      | some feed => .ok (.atom feed)
      | none => .error (.parseError "Could not parse as RSS or Atom feed")

/-- src/source.rs `Feed::items`: the first `count` entries of the feed, in feed
order, each wrapped in the matching `SourceItem` variant. -/
def Feed.items : Feed → Nat → List SourceItem
  | .rss channel, count => (channel.items.take count).map SourceItem.rss
  | .atom feed, count => (feed.entries.take count).map SourceItem.atom

/-- Helper: every entry of the feed wrapped in its `SourceItem` variant
(`Feed::items` with no truncation). -/
def Feed.allItems : Feed → List SourceItem
  | .rss channel => channel.items.map SourceItem.rss
  | .atom feed => feed.entries.map SourceItem.atom

/-- Helper: the number of entries of the feed. -/
def Feed.length : Feed → Nat
  | .rss channel => channel.items.length
  | .atom feed => feed.entries.length

/-- src/source.rs `SourceItem::from_url_and_title`. -/
def SourceItem.from_url_and_title (url : String) (title : String) : SourceItem :=
  .static { url := url, title := title }

/-- src/source.rs `SourceItem::get_audio_link`: RSS items yield their
enclosure's url when the enclosure is present, Atom entries yield the href of
their first link when one exists, static items always yield their url. -/
def SourceItem.get_audio_link : SourceItem → Option String
  | .rss item => item.enclosure.map Enclosure.url
  | .atom entry => entry.links.head?.map AtomLink.href
  | .static item => some item.url

/-- src/source.rs `SourceItem::title`. -/
def SourceItem.title : SourceItem → Option String
  | .rss item => item.title
  | .atom entry => some entry.title
  | .static item => some item.title

/-- src/fetch.rs `fetch`: resolves the item's audio link with `.unwrap()` — a
missing link panics the process, modelled as the `none` of the outer `Option`;
with a link present, dispatch on the download method runs yt-dlp and wraps an
io failure as `SourceError.audioDownloadError` through the `From` impl. -/
def fetch (env : Env) (item : SourceItem) (method : DownloadMethod) :
    Option (Except SourceError (List Nat)) :=
  match item.get_audio_link with
  | none => none
  | some link =>
    match method with
    | .ytDlp =>
      some (match env.yt_dlp_run link with
        | .ok bytes => .ok bytes
        | .error e => .error (.audioDownloadError e))

/-- src/source.rs `SourceItem::download_audio`: delegates to `fetch`. -/
def SourceItem.download_audio (env : Env) (item : SourceItem) (method : DownloadMethod) :
    Option (Except SourceError (List Nat)) :=
  fetch env item method

/-- The observable events of a `sources sync` run: console lines, network
calls and process invocations, in the order they happen.  The last three
constructors are the hand-off to the download / transcription / publish
collaborators; the sync loop of src/main.rs never performs them (the
post-processing call is commented out), so no embedding function emits them. -/
inductive Event where
  | syncingSource (name : String)
  | catalogFetch (language : String) (course_id : Nat)
  | titlesError (name : String)
  | feedFetch (url : String)
  | itemsError (name : String)
  | skippedExisting (title : String)
  | noTitle (name : String)
  | linked (title : String) (url : String)
  | noAudioLink (name : String)
  | downloadCall (url : String)
  | transcribeCall (title : String)
  | publishCall (title : String)
deriving DecidableEq, Repr

/-- Events that are a network call: the catalog title fetch, the feed fetch,
and a publish to the catalog. -/
def Event.isNetworkCall : Event → Bool
  | .catalogFetch _ _ => true
  | .feedFetch _ => true
  | .publishCall _ => true
  | _ => false

/-- Events that hand an item off to the download / transcribe / publish
collaborators. -/
def Event.isHandoff : Event → Bool
  | .downloadCall _ => true
  | .transcribeCall _ => true
  | .publishCall _ => true
  | _ => false

/-- Per-item events of the sync loop body. -/
def Event.isItemEvent : Event → Bool
  | .skippedExisting _ => true
  | .noTitle _ => true
  | .linked _ _ => true
  | .noAudioLink _ => true
  | _ => false

/-- Events that skip an item as a duplicate of an existing lesson. -/
def Event.isDuplicateSkip : Event → Bool
  | .skippedExisting _ => true
  | _ => false

/-- The body of the per-item loop of `SourcesSubcommand::Sync`
(src/main.rs): an item with no title is reported; an item whose title is in
the existing-lesson snapshot is skipped; otherwise the audio link is resolved
and either printed next to the title or its absence reported. -/
def processItem (source_name : String) (lesson_titles : List String)
    (item : SourceItem) : Event :=
  match item.title with
  | none => .noTitle source_name
  | some t =>
    if lesson_titles.contains t then
      .skippedExisting t
    else
      match item.get_audio_link with
      | some link => .linked t link
      | none => .noAudioLink source_name

/-- The feed phase of one source's sync (src/main.rs): `Feed::from_source`
performs the feed network fetch; on failure the error is printed and the
source's sync ends with no item processed; on success the first 5 items are
each processed by the loop body. -/
def syncFeedPhase (env : Env) (source : Source) (lesson_titles : List String) :
    List Event :=
  Event.feedFetch source.url ::
    match Feed.from_source env source with
    | .error _ => [Event.itemsError source.name]
    | .ok feed => (feed.items 5).map (processItem source.name lesson_titles)

/-- One source's sync (the body of the `for source in filtered_sources` loop
of src/main.rs): print the source name, call the catalog for existing lesson
titles (on failure print the error and continue with an empty list), then run
the feed phase. -/
def syncSource (env : Env) (source : Source) : List Event :=
  Event.syncingSource source.name ::
    Event.catalogFetch source.language source.course_id ::
    match env.get_lesson_titles source.language source.course_id with
    | .ok titles => syncFeedPhase env source titles
    | .error _ => Event.titlesError source.name :: syncFeedPhase env source []

/-- The `sources sync` command of src/main.rs: filter the configured sources
by the optional tag list and sync each in order.  `dry_run` is accepted, as in
the code, but never consulted. -/
def syncCommand (env : Env) (config : LqcliConfig) (tags : Option (List String))
    (dry_run : Bool) : List Event :=
  (config.filtered_sources (tags.getD [])).flatMap (syncSource env)

/-! Concrete fixtures used by the witnesses and counterexamples below. -/

/-- A three-item RSS channel: item 1 has a title and an enclosure, item 2 has
a title but no enclosure, item 3's title already exists in the catalog. -/
def demoChannel : RssChannel :=
  { items :=
      [ { title := some "Ep1", enclosure := some { url := "http://a/1.mp3" } }
      , { title := some "Ep2", enclosure := none }
      , { title := some "Existing Lesson", enclosure := some { url := "http://a/3.mp3" } } ] }

/-- A configured source. -/
def demoSource : Source :=
  { content_type := .syndication
  , download_method := .ytDlp
  , url := "http://example.com/feed.xml"
  , name := "Demo"
  , postprocessing_prompt := none
  , course_id := 1
  , language := "de"
  , tags := { val := some ["daily"] }
  , transcript_via := "openai" }

/-- A second configured source, with no tags of its own. -/
def demoSourceB : Source :=
  { content_type := .syndication
  , download_method := .ytDlp
  , url := "http://other.example.com/feed.xml"
  , name := "B"
  , postprocessing_prompt := none
  , course_id := 2
  , language := "de"
  , tags := { val := none }
  , transcript_via := "openai" }

def demoLingqConfig : LingqConfig := { api_key := "k", request_delay := 5 }

def demoOpenaiConfig : OpenaiConfig :=
  { api_key := "k"
  , postprocessing_prompt := "p"
  , postprocessing_model := "gpt-4o-mini"
  , whisper_model := "whisper-1" }

/-- A configuration with the two demo sources. -/
def demoConfig : LqcliConfig :=
  { lingq := demoLingqConfig, openai := demoOpenaiConfig
  , sources := [demoSource, demoSourceB] }

/-- An environment where everything succeeds: the catalog already holds the
lesson "Existing Lesson" and every url parses as `demoChannel`. -/
def demoEnv : Env :=
  { get_lesson_titles := fun _ _ => .ok ["Existing Lesson"]
  , fetch_bytes := fun _ => .ok [1]
  , parse_rss := fun _ => some demoChannel
  , parse_atom := fun _ => none
  , yt_dlp_run := fun _ => .ok [7] }

/-- An environment where the feed fetch fails with a 404 and the catalog
succeeds. -/
def fetchFailEnv : Env :=
  { get_lesson_titles := fun _ _ => .ok []
  , fetch_bytes := fun _ => .error "404 Not Found"
  , parse_rss := fun _ => none
  , parse_atom := fun _ => none
  , yt_dlp_run := fun _ => .error "io" }

/-- An environment where the catalog title fetch fails and the feed fetch
succeeds. -/
def titlesFailEnv : Env :=
  { get_lesson_titles := fun _ _ => .error "boom"
  , fetch_bytes := fun _ => .ok [1]
  , parse_rss := fun _ => some demoChannel
  , parse_atom := fun _ => none
  , yt_dlp_run := fun _ => .ok [7] }

/-- C1: evaluated at the failing input (a `sources sync` run with the dry-run
flag set, over a configuration with sources): the run still performs network
calls — the catalog title fetch is in the trace — and the trace is identical
whether or not the flag is set, because the code binds `dry_run` but never
consults it; the command does not short-circuit to rendering the selection. -/
theorem sync_dry_run_still_calls_network :
    (syncCommand demoEnv demoConfig none true).any Event.isNetworkCall = true ∧
    Event.catalogFetch "de" 1 ∈ syncCommand demoEnv demoConfig none true ∧
    syncCommand demoEnv demoConfig none true = syncCommand demoEnv demoConfig none false :=
  ⟨by decide, by decide, rfl⟩

/-- C2 counterexample: in the concrete scenario (catalog holds "Existing
Lesson", feed is the three-item `demoChannel`) item 1 has a fresh title and a
resolvable audio link, yet the source's sync trace contains no hand-off to
the download / transcribe / publish collaborators: the item is only printed
as `title: link`, item 2 is reported as missing-link, item 3 skipped as a
duplicate. -/
theorem sync_linked_item_not_handed_off :
    syncSource demoEnv demoSource =
      [ .syncingSource "Demo", .catalogFetch "de" 1
      , .feedFetch "http://example.com/feed.xml"
      , .linked "Ep1" "http://a/1.mp3"
      , .noAudioLink "Demo"
      , .skippedExisting "Existing Lesson" ] ∧
    (syncSource demoEnv demoSource).filter Event.isHandoff = [] :=
  ⟨rfl, rfl⟩

/-- C2 (amended): in the per-source sync loop, an item with a fresh title
whose audio link resolves to some url has its title and link printed
(`linked`), an item whose link resolves to none is reported and skipped, the
loop body never emits a hand-off to the download/transcribe/publish
collaborators (that stage is not implemented), and on a resolved feed the
loop emits exactly one event per item in order, so no item's outcome aborts
the loop. -/
theorem sync_item_linked_prints_only (source_name : String)
    (lesson_titles : List String) (item : SourceItem) :
    (∀ t url, item.title = some t → lesson_titles.contains t = false →
      item.get_audio_link = some url →
      processItem source_name lesson_titles item = .linked t url) ∧
    (∀ t, item.title = some t → lesson_titles.contains t = false →
      item.get_audio_link = none →
      processItem source_name lesson_titles item = .noAudioLink source_name) ∧
    Event.isHandoff (processItem source_name lesson_titles item) = false ∧
    (∀ env source feed titles,
      env.get_lesson_titles source.language source.course_id = .ok titles →
      Feed.from_source env source = .ok feed →
      syncSource env source =
        .syncingSource source.name ::
          .catalogFetch source.language source.course_id ::
          .feedFetch source.url ::
          (feed.items 5).map (processItem source.name titles)) := by
  refine ⟨?_, ?_, ?_, ?_⟩
  · intro t url ht hc hl
    have hm : t ∉ lesson_titles := by simpa using hc
    simp [processItem, ht, hm, hl]
  · intro t ht hc hl
    have hm : t ∉ lesson_titles := by simpa using hc
    simp [processItem, ht, hm, hl]
  · cases ht : item.title with
    | none => simp [processItem, ht, Event.isHandoff]
    | some t =>
      by_cases hc : lesson_titles.contains t = true
      · have hm : t ∈ lesson_titles := by simpa using hc
        simp [processItem, ht, hm, Event.isHandoff]
      · have hm : t ∉ lesson_titles := by simpa using hc
        cases hl : item.get_audio_link <;>
          simp [processItem, ht, hm, hl, Event.isHandoff]
  · intro env source feed titles htitles hfeed
    simp [syncSource, htitles, syncFeedPhase, hfeed]

/-- C2 witness: the amended theorem applied to item 1 of the scenario. -/
theorem sync_item_linked_prints_only_witness :
    (SourceItem.rss { title := some "Ep1", enclosure := some { url := "http://a/1.mp3" } }).title
        = some "Ep1" ∧
    (["Existing Lesson"] : List String).contains "Ep1" = false ∧
    processItem "Demo" ["Existing Lesson"]
        (SourceItem.rss { title := some "Ep1", enclosure := some { url := "http://a/1.mp3" } })
      = .linked "Ep1" "http://a/1.mp3" :=
  ⟨rfl, by decide,
    (sync_item_linked_prints_only "Demo" ["Existing Lesson"]
        (SourceItem.rss { title := some "Ep1", enclosure := some { url := "http://a/1.mp3" } })).1
      "Ep1" "http://a/1.mp3" rfl (by decide) rfl⟩

/-- C3: feed resolution returns a `fetchError` on a transport failure, parses
RSS first (an RSS success wins regardless of the Atom parser), attempts Atom
only on RSS failure, returns the human-readable `parseError` when both parses
fail, and the two error variants are distinct. -/
theorem feed_from_source_fallback (env : Env) (source : Source) :
    (∀ e, env.fetch_bytes source.url = .error e →
      Feed.from_source env source = .error (.fetchError e)) ∧
    (∀ content channel, env.fetch_bytes source.url = .ok content →
      env.parse_rss content = some channel →
      Feed.from_source env source = .ok (.rss channel)) ∧
    (∀ content feed, env.fetch_bytes source.url = .ok content →
      env.parse_rss content = none → env.parse_atom content = some feed →
      Feed.from_source env source = .ok (.atom feed)) ∧
    (∀ content, env.fetch_bytes source.url = .ok content →
      env.parse_rss content = none → env.parse_atom content = none →
      Feed.from_source env source =
        .error (.parseError "Could not parse as RSS or Atom feed")) ∧
    (∀ e msg, SourceError.fetchError e ≠ SourceError.parseError msg) := by
  refine ⟨?_, ?_, ?_, ?_, ?_⟩ <;> intros <;> simp_all [Feed.from_source]

/-- C3 witness: a 404 transport failure surfaces as a `fetchError`. -/
theorem feed_from_source_fallback_witness :
    fetchFailEnv.fetch_bytes demoSource.url = .error "404 Not Found" ∧
    Feed.from_source fetchFailEnv demoSource = .error (.fetchError "404 Not Found") :=
  ⟨rfl, (feed_from_source_fallback fetchFailEnv demoSource).1 "404 Not Found" rfl⟩

/-- Helper: with an empty existing-titles snapshot the loop body never skips
an item as a duplicate, since no title is contained in the empty list. -/
lemma processItem_nil_no_skip (source_name : String) (item : SourceItem) :
    Event.isDuplicateSkip (processItem source_name [] item) = false := by
  cases ht : item.title with
  | none => simp [processItem, ht, Event.isDuplicateSkip]
  | some t =>
    cases hl : item.get_audio_link <;>
      simp [processItem, ht, hl, Event.isDuplicateSkip]

/-- C4: a feed-resolution failure ends only that source's sync: the error is
reported for it, its trace contains zero item events, and every source
selected for the run — in particular every subsequent one — still
contributes its own "Syncing source" line to the run's trace. -/
theorem sync_feed_failure_isolated (env : Env) (config : LqcliConfig)
    (tags : Option (List String)) (dry_run : Bool) (source : Source)
    (e : SourceError) :
    Feed.from_source env source = .error e →
    (Event.itemsError source.name ∈ syncSource env source ∧
     (syncSource env source).filter Event.isItemEvent = [] ∧
     ∀ s₂ ∈ config.filtered_sources (tags.getD []),
       Event.syncingSource s₂.name ∈ syncCommand env config tags dry_run) := by
  intro h
  refine ⟨?_, ?_, ?_⟩
  · cases htit : env.get_lesson_titles source.language source.course_id <;>
      simp [syncSource, htit, syncFeedPhase, h]
  · cases htit : env.get_lesson_titles source.language source.course_id <;>
      simp [syncSource, htit, syncFeedPhase, h, Event.isItemEvent]
  · intro s₂ hs₂
    refine List.mem_flatMap.mpr ⟨s₂, hs₂, ?_⟩
    simp [syncSource]

/-- C4 witness: with a 404 feed fetch, the first demo source reports the
error with zero item events and the second source is still attempted. -/
theorem sync_feed_failure_isolated_witness :
    Feed.from_source fetchFailEnv demoSource = .error (.fetchError "404 Not Found") ∧
    Event.itemsError "Demo" ∈ syncSource fetchFailEnv demoSource ∧
    (syncSource fetchFailEnv demoSource).filter Event.isItemEvent = [] ∧
    Event.syncingSource "B" ∈ syncCommand fetchFailEnv demoConfig none false :=
  ⟨rfl,
   (sync_feed_failure_isolated fetchFailEnv demoConfig none false demoSource
      (.fetchError "404 Not Found") rfl).1,
   (sync_feed_failure_isolated fetchFailEnv demoConfig none false demoSource
      (.fetchError "404 Not Found") rfl).2.1,
   (sync_feed_failure_isolated fetchFailEnv demoConfig none false demoSource
      (.fetchError "404 Not Found") rfl).2.2 demoSourceB (by decide)⟩

/-- C5: when the catalog title fetch fails, the error is reported and the
source's sync proceeds — the feed phase still runs — with an empty
existing-titles snapshot, and consequently the trace contains no
duplicate-skip event for that source. -/
theorem sync_titles_failure_degrades (env : Env) (source : Source) (err : String) :
    env.get_lesson_titles source.language source.course_id = .error err →
    (syncSource env source =
      .syncingSource source.name ::
        .catalogFetch source.language source.course_id ::
        .titlesError source.name :: syncFeedPhase env source [] ∧
     (syncSource env source).filter Event.isDuplicateSkip = []) := by
  intro h
  have hfeed : (syncFeedPhase env source []).filter Event.isDuplicateSkip = [] := by
    refine List.filter_eq_nil_iff.mpr ?_
    intro ev hev
    unfold syncFeedPhase at hev
    rcases List.mem_cons.mp hev with rfl | hev
    · simp [Event.isDuplicateSkip]
    · cases hf : Feed.from_source env source with
      | error e =>
        rw [hf] at hev
        rcases List.mem_singleton.mp hev with rfl
        simp [Event.isDuplicateSkip]
      | ok feed =>
        rw [hf] at hev
        rcases List.mem_map.mp hev with ⟨it, _, rfl⟩
        simp [processItem_nil_no_skip]
  constructor
  · simp [syncSource, h]
  · simp [syncSource, h, List.filter_cons, Event.isDuplicateSkip, hfeed]

/-- C5 witness: the catalog fails with "boom" but the feed resolves; the sync
proceeds with the empty snapshot and nothing is skipped as a duplicate (the
feed's third item is titled like an existing catalog lesson). -/
theorem sync_titles_failure_degrades_witness :
    titlesFailEnv.get_lesson_titles "de" 1 = .error "boom" ∧
    syncSource titlesFailEnv demoSource =
      .syncingSource "Demo" :: .catalogFetch "de" 1 ::
        .titlesError "Demo" :: syncFeedPhase titlesFailEnv demoSource [] ∧
    (syncSource titlesFailEnv demoSource).filter Event.isDuplicateSkip = [] :=
  ⟨rfl,
   (sync_titles_failure_degrades titlesFailEnv demoSource "boom" rfl).1,
   (sync_titles_failure_degrades titlesFailEnv demoSource "boom" rfl).2⟩

/-- C6: with an empty tag filter every configured source is returned — the
very list, so in original order; with a non-empty filter a source is
selected iff one of its own tags occurs in the filter; a source whose tag
set is absent is never selected by a non-empty filter. -/
theorem filtered_sources_spec (config : LqcliConfig) :
    config.filtered_sources [] = config.sources ∧
    (∀ tags : List String, tags ≠ [] → ∀ source,
      source ∈ config.filtered_sources tags ↔
        (source ∈ config.sources ∧
          ∃ source_tags, source.tags.val = some source_tags ∧
            ∃ t ∈ source_tags, t ∈ tags)) ∧
    (∀ tags : List String, tags ≠ [] → ∀ source, source.tags.val = none →
      source ∉ config.filtered_sources tags) := by
  have h2 : ∀ tags : List String, tags ≠ [] → ∀ source,
      source ∈ config.filtered_sources tags ↔
        (source ∈ config.sources ∧
          ∃ source_tags, source.tags.val = some source_tags ∧
            ∃ t ∈ source_tags, t ∈ tags) := by
    intro tags ht source
    have hne : tags.isEmpty = false := by simpa [List.isEmpty_iff] using ht
    rw [LqcliConfig.filtered_sources, hne]
    simp only [Bool.false_eq_true, if_false, List.mem_filter]
    constructor
    · rintro ⟨hmem, hp⟩
      refine ⟨hmem, ?_⟩
      cases hv : source.tags.val with
      | none => rw [hv] at hp; exact absurd hp (by simp)
      | some source_tags =>
        rw [hv] at hp
        exact ⟨source_tags, rfl, by simpa using hp⟩
    · rintro ⟨hmem, source_tags, hv, t, hts, htags⟩
      refine ⟨hmem, ?_⟩
      rw [hv]
      simpa using ⟨t, hts, htags⟩
  refine ⟨by simp [LqcliConfig.filtered_sources], h2, ?_⟩
  intro tags ht source hv hmem
  rcases (h2 tags ht source).mp hmem with ⟨_, st, hst, _⟩
  rw [hv] at hst
  exact Option.noConfusion hst

/-- C6 witness: the non-empty filter ["daily"] selects the demo source
exactly because its tag "daily" is in the filter. -/
theorem filtered_sources_spec_witness :
    (["daily"] : List String) ≠ [] ∧
    (demoSource ∈ demoConfig.filtered_sources ["daily"] ↔
      (demoSource ∈ demoConfig.sources ∧
        ∃ source_tags, demoSource.tags.val = some source_tags ∧
          ∃ t ∈ source_tags, t ∈ (["daily"] : List String))) :=
  ⟨by decide, (filtered_sources_spec demoConfig).2.1 ["daily"] (by decide) demoSource⟩

/-- C7: `items` returns exactly `min count length` items — the `count`-prefix
of the feed's entries in feed-native order (take of the native sequence, no
re-sorting), all entries when the feed is shorter, and the empty list for
count 0. -/
theorem feed_items_spec (feed : Feed) (count : Nat) :
    (feed.items count).length = min count feed.length ∧
    feed.items count = feed.allItems.take count ∧
    feed.items 0 = [] := by
  refine ⟨?_, ?_, ?_⟩ <;>
    cases feed <;>
      simp [Feed.items, Feed.allItems, Feed.length, List.map_take]

/-- C8: audio-link resolution is total and never raises, whatever the
source's content type (resolution dispatches on the item variant alone): an
RSS item yields its enclosure's url, or none when the enclosure is absent;
an Atom entry yields the href of its first declared link, or none when it
has no links; a static item always yields the url supplied at construction;
and every result is an explicit `Option`. -/
theorem get_audio_link_total :
    (∀ item : RssItem,
      (SourceItem.rss item).get_audio_link = item.enclosure.map Enclosure.url) ∧
    (∀ entry : AtomEntry,
      (SourceItem.atom entry).get_audio_link = entry.links.head?.map AtomLink.href) ∧
    (∀ item : StaticItem, (SourceItem.static item).get_audio_link = some item.url) ∧
    (∀ item : SourceItem,
      item.get_audio_link = none ∨ ∃ url, item.get_audio_link = some url) := by
  refine ⟨fun _ => rfl, fun _ => rfl, fun _ => rfl, ?_⟩
  intro item
  cases item.get_audio_link with
  | none => exact Or.inl rfl
  | some url => exact Or.inr ⟨url, rfl⟩

/-- C9: deduplication is an exact membership test of the candidate title
against the snapshot: a titled item is skipped as existing iff its title is
literally in the snapshot; an untitled item yields the distinct `noTitle`
report; `noTitle` is never a duplicate skip; and the loop maps every item to
exactly one event, so neither condition aborts the source's loop. -/
theorem dedup_membership_spec (source_name : String) (lesson_titles : List String)
    (item : SourceItem) :
    (∀ t, item.title = some t →
      ((processItem source_name lesson_titles item = .skippedExisting t) ↔
        t ∈ lesson_titles)) ∧
    (item.title = none →
      processItem source_name lesson_titles item = .noTitle source_name) ∧
    (∀ t, Event.noTitle source_name ≠ Event.skippedExisting t) ∧
    (∀ items : List SourceItem,
      (items.map (processItem source_name lesson_titles)).length = items.length) := by
  refine ⟨?_, ?_, ?_, ?_⟩
  · intro t ht
    by_cases hm : t ∈ lesson_titles
    · simp [processItem, ht, hm]
    · cases hl : item.get_audio_link <;> simp [processItem, ht, hm, hl]
  · intro ht
    simp [processItem, ht]
  · intro t
    simp
  · intro items
    simp

/-- C9 witness: the exact (case-sensitive) membership at work — a title
present verbatim in the snapshot is skipped as existing. -/
theorem dedup_membership_spec_witness :
    (SourceItem.static { url := "u", title := "Existing Lesson" }).title
        = some "Existing Lesson" ∧
    processItem "Demo" ["Existing Lesson"]
        (SourceItem.static { url := "u", title := "Existing Lesson" })
      = .skippedExisting "Existing Lesson" :=
  ⟨rfl,
   ((dedup_membership_spec "Demo" ["Existing Lesson"]
        (SourceItem.static { url := "u", title := "Existing Lesson" })).1
      "Existing Lesson" rfl).mpr (by decide)⟩

/-- C10: `fetch` resolves the audio link with `.unwrap()`, so on an item
whose link resolves to none the call panics (the outer `none` of the model)
instead of returning a typed `SourceError`; only with a resolvable link does
it return yt-dlp's bytes or a typed `audioDownloadError`; `download_audio`
delegates to `fetch`. -/
theorem fetch_unwrap_panics (env : Env) (item : SourceItem)
    (method : DownloadMethod) :
    (item.get_audio_link = none → fetch env item method = none) ∧
    (∀ link, item.get_audio_link = some link →
      fetch env item method =
        some (match env.yt_dlp_run link with
          | .ok bytes => .ok bytes
          | .error e => .error (.audioDownloadError e))) ∧
    item.download_audio env method = fetch env item method := by
  refine ⟨?_, ?_, rfl⟩
  · intro h
    simp [fetch, h]
  · intro link h
    cases method
    simp [fetch, h]

/-- C10 witness: an RSS item without an enclosure resolves to no link and
`fetch` panics (models to `none`) rather than returning a `SourceError`. -/
theorem fetch_unwrap_panics_witness :
    (SourceItem.rss { title := some "Ep2", enclosure := none }).get_audio_link = none ∧
    fetch demoEnv (SourceItem.rss { title := some "Ep2", enclosure := none })
      .ytDlp = none :=
  ⟨rfl,
   (fetch_unwrap_panics demoEnv
      (SourceItem.rss { title := some "Ep2", enclosure := none }) .ytDlp).1 rfl⟩

end Lqcli
